import Mathlib

/-!
# seda-chain: end-to-end query helpers and the IBC transfer scenario

A shallow embedding of

* `e2e/query.go` (`queryTx` and the six typed query helpers), and
* `interchaintest/chain_start_test.go` (`TestSedaGaiaIBCTransfer`),

followed by theorems about them.  Everything outside the repository (the HTTP
client, `encoding/json`, `fmt`, the codec, the chains, the relayer) is a
parameter of the embedding: the theorems hold for every behaviour of those
collaborators.
-/

namespace E2E

/-! ## `e2e/query.go` -/

/-- A finite IEEE-754 double written as sign, integer significand and binary
exponent; its value is `(-1)^neg * mant * 2^exp`.  `encoding/json` never
produces a NaN or an infinity, so these are all the `float64` values a decoded
body can hold (negative zero is `neg = true, mant = 0`). -/
structure Float64 where
  neg : Bool
  mant : Nat
  exp : Int
deriving DecidableEq, Repr

/-- The Go comparison `v == 0` on a `float64` (true for both zeros). -/
def Float64.isZero (v : Float64) : Bool := v.mant == 0

/-- The `float64` holding the integer `n` (exact whenever `|n| ≤ 2^53`). -/
def Float64.ofInt (n : Int) : Float64 := ⟨decide (n < 0), n.natAbs, 0⟩

/-- The dynamic values `encoding/json` stores in an `interface{}`:
`nil`, `bool`, `float64`, `string`, `[]interface{}` and
`map[string]interface{}` (a map is an association list read by first match). -/
inductive Value where
  | null : Value
  | bool (b : Bool) : Value
  | number (v : Float64) : Value
  | string (s : String) : Value
  | array (xs : List Value) : Value
  | object (kvs : List (String × Value)) : Value

/-- The part of `*http.Response` that `queryTx` reads. -/
structure Response where
  StatusCode : Int
  Body : String

/-- The collaborators of `queryTx`.
* `Get url` is `http.Get(url)`: a transport error or a response;
* `Decode body` is `json.NewDecoder(body).Decode(&result)` for a
  `result` of type `map[string]interface{}`: an error or the decoded map
  (the nil map is the empty association list, both answer every index with nil);
* `fmtV v` is what the verb `%v` of `fmt` prints for `v`. -/
structure Net where
  Get : String → Except String Response
  Decode : String → Except String (List (String × Value))
  fmtV : Value → String

/-- How a call of a Go function ends: it returns its `error` value (`none` is
`nil`), or it panics. -/
inductive Outcome where
  | returned (err : Option String) : Outcome
  | panicked (msg : String) : Outcome
deriving DecidableEq, Repr

/-- The function `queryTx(endpoint, txHash string) error` of `e2e/query.go`. -/
def queryTx (net : Net) (endpoint txHash : String) : Outcome :=
  match net.Get (endpoint ++ "/cosmos/tx/v1beta1/txs/" ++ txHash) with
  | .error err => .returned (some ("failed to execute HTTP request: " ++ err))
  | .ok resp =>
    if resp.StatusCode ≠ 200 then
      .returned (some ("tx query returned non-200 status: " ++ toString resp.StatusCode))
    else
      match net.Decode resp.Body with
      | .error err => .returned (some ("failed to read response body: " ++ err))
      | .ok result =>
        -- txResp := result["tx_response"].(map[string]interface{})
        match result.lookup "tx_response" with
        | some (.object txResp) =>
          -- v := txResp["code"]; v.(float64) != 0
          match txResp.lookup "code" with
          | some (.number v) =>
            if v.isZero then .returned none
            else .returned (some ("tx " ++ txHash ++ " failed with status code "
                    ++ net.fmtV (.number v)))
          | _ => .panicked "interface conversion: interface \x7b\x7d is not float64"
        | _ => .panicked "interface conversion: interface \x7b\x7d is not map[string]interface \x7b\x7d"

/-- The serialized body returned by `httpGet`. -/
abbrev Bytes := List Nat

/-- The package-level codec `cdc` seen at one response type `α`:
`zero` is the value of a freshly declared `var res α`, and
`UnmarshalJSON body res` is `cdc.UnmarshalJSON(body, &res)`, which returns the
(possibly partly filled) value left in `res` together with its error. -/
structure Codec (α : Type) where
  zero : α
  UnmarshalJSON : Bytes → α → α × Option String

/-- The helper `httpGet(path) ([]byte, error)` of the package, which is not
among the visible sources. -/
abbrev HttpGet := String → Except String Bytes

/-- The function `queryGovProposal` of `e2e/query.go`. -/
def queryGovProposal {α : Type} (httpGet : HttpGet) (cdc : Codec α)
    (endpoint : String) (proposalID : Int) : α × Option String :=
  let govProposalResp := cdc.zero
  let path := endpoint ++ "/cosmos/gov/v1/proposals/" ++ toString proposalID
  match httpGet path with
  | .error err => (govProposalResp, some ("failed to execute HTTP request: " ++ err))
  | .ok body =>
    match cdc.UnmarshalJSON body govProposalResp with
    | (govProposalResp, some err) => (govProposalResp, some err)
    | (govProposalResp, none) => (govProposalResp, none)

/-- The function `queryDataRequestWasm` of `e2e/query.go`. -/
def queryDataRequestWasm {α : Type} (httpGet : HttpGet) (cdc : Codec α)
    (endpoint drHash : String) : α × Option String :=
  let res := cdc.zero
  match httpGet (endpoint ++ "/seda-chain/wasm-storage/data_request_wasm/" ++ drHash) with
  | .error err => (res, some err)
  | .ok body =>
    match cdc.UnmarshalJSON body res with
    | (res, some err) => (res, some err)
    | (res, none) => (res, none)

/-- The function `queryOverlayWasm` of `e2e/query.go`. -/
def queryOverlayWasm {α : Type} (httpGet : HttpGet) (cdc : Codec α)
    (endpoint hash : String) : α × Option String :=
  let res := cdc.zero
  match httpGet (endpoint ++ "/seda-chain/wasm-storage/overlay_wasm/" ++ hash) with
  | .error err => (res, some err)
  | .ok body =>
    match cdc.UnmarshalJSON body res with
    | (res, some err) => (res, some err)
    | (res, none) => (res, none)

/-- The function `queryDataRequestWasms` of `e2e/query.go`. -/
def queryDataRequestWasms {α : Type} (httpGet : HttpGet) (cdc : Codec α)
    (endpoint : String) : α × Option String :=
  let res := cdc.zero
  match httpGet (endpoint ++ "/seda-chain/wasm-storage/data_request_wasms") with
  | .error err => (res, some err)
  | .ok body =>
    match cdc.UnmarshalJSON body res with
    | (res, some err) => (res, some err)
    | (res, none) => (res, none)

/-- The function `queryOverlayWasms` of `e2e/query.go`. -/
def queryOverlayWasms {α : Type} (httpGet : HttpGet) (cdc : Codec α)
    (endpoint : String) : α × Option String :=
  let res := cdc.zero
  match httpGet (endpoint ++ "/seda-chain/wasm-storage/overlay_wasms") with
  | .error err => (res, some err)
  | .ok body =>
    match cdc.UnmarshalJSON body res with
    | (res, some err) => (res, some err)
    | (res, none) => (res, none)

/-- The function `queryProxyContractRegistry` of `e2e/query.go`. -/
def queryProxyContractRegistry {α : Type} (httpGet : HttpGet) (cdc : Codec α)
    (endpoint : String) : α × Option String :=
  let res := cdc.zero
  match httpGet (endpoint ++ "/seda-chain/wasm-storage/proxy_contract_registry") with
  | .error err => (res, some err)
  | .ok body =>
    match cdc.UnmarshalJSON body res with
    | (res, some err) => (res, some err)
    | (res, none) => (res, none)

/-- The error contract of one typed helper: `read` is what `httpGet` answered
on the helper's path, `out` is what the helper returned, and `wrap` is how the
helper reports a read error.
1. a failed read gives the zero value and a non-nil error;
2. a failed decode gives a non-nil error (the decoder's);
3. a nil error is returned only after a successful read and a successful
   decode, and then the value is the decoded one. -/
def HelperContract {α : Type} (cdc : Codec α) (read : Except String Bytes)
    (wrap : String → String) (out : α × Option String) : Prop :=
  (∀ e, read = .error e → out = (cdc.zero, some (wrap e))) ∧
  (∀ body res e, read = .ok body → cdc.UnmarshalJSON body cdc.zero = (res, some e) →
      out.2 = some e) ∧
  (out.2 = none → ∃ body, read = .ok body ∧ cdc.UnmarshalJSON body cdc.zero = (out.1, none))

/-- A stand-in network for concrete evaluations: every URL answers with the
given status and body, and the decoder knows four bodies. -/
def demoNet (status : Int) (body : String) : Net where
  Get := fun _ => .ok ⟨status, body⟩
  Decode := fun b =>
    if b = "\x7b\x7d" then .ok []
    else if b = "\x7b\x22tx_response\x22:\x7b\x22code\x22:0\x7d\x7d" then
      .ok [("tx_response", .object [("code", .number (Float64.ofInt 0))])]
    else if b = "\x7b\x22tx_response\x22:\x7b\x22code\x22:5\x7d\x7d" then
      .ok [("tx_response", .object [("code", .number (Float64.ofInt 5))])]
    else if b = "\x7b\x22tx_response\x22:\x7b\x7d\x7d" then
      .ok [("tx_response", .object [])]
    else .error "invalid character"
  fmtV := fun v =>
    match v with
    | .number f => (if f.neg then "-" else "") ++ toString f.mant
    | _ => "?"

/-- A stand-in codec for concrete evaluations, decoding into a number: the
one-byte body `[1]` decodes to 7, every other body fails after storing 3. -/
def demoCodec : Codec Nat where
  zero := 0
  UnmarshalJSON := fun body _ =>
    if body = [1] then (7, none) else (3, some "unexpected end of JSON input")

/-- A stand-in `httpGet`: the endpoint "down" cannot be reached, the endpoint
"junk" answers with an undecodable body, every other endpoint with `[1]`. -/
def demoHttpGet : HttpGet := fun path =>
  if path = "down/seda-chain/wasm-storage/overlay_wasms" then .error "connection refused"
  else if path = "junk/seda-chain/wasm-storage/overlay_wasms" then .ok [0]
  else .ok [1]

end E2E

namespace Interchaintest

set_option linter.constructorNameAsVariable false

/-! ## `interchaintest/chain_start_test.go` -/

/-- The two chain handles of the scenario: `seda` is `chains[0]`, `gaia` is
`chains[1]`. -/
inductive Chain where
  | seda : Chain
  | gaia : Chain
deriving DecidableEq, Repr

/-- The fields of `ibc.ChainConfig` the scenario reads through `Config()`. -/
structure ChainConfig where
  ChainID : String
  Denom : String
deriving DecidableEq, Repr

/-- The Go struct `ibc.WalletAmount`; `Amount` is a `math.Int`. -/
structure WalletAmount where
  Address : String
  Denom : String
  Amount : Int
deriving DecidableEq, Repr

/-- The Go struct `ibc.ChannelCounterparty`. -/
structure ChannelCounterparty where
  PortID : String
  ChannelID : String
deriving DecidableEq, Repr

/-- The fields of `ibc.ChannelOutput` the scenario reads. -/
structure ChannelOutput where
  PortID : String
  ChannelID : String
  Counterparty : ChannelCounterparty
deriving DecidableEq, Repr

/-- The identifying fields of `ibc.Packet`. -/
structure Packet where
  Sequence : Nat
  SourceChannel : String
  DestChannel : String
deriving DecidableEq, Repr

/-- The fields of `ibc.Tx` the scenario reads. -/
structure Tx where
  TxHash : String
  Packet : Packet
deriving DecidableEq, Repr

/-- The Go struct `transfertypes.DenomTrace`. -/
structure DenomTrace where
  Path : String
  BaseDenom : String
deriving DecidableEq, Repr

/-- A Go call result `(value, error)`: either the error or the value. -/
abbrev Reply (α : Type) := Except String α

deriving instance DecidableEq for Except

/-- One observable action of the test: a call to a collaborator with its
arguments and what it answered, or an evaluated `require.Equal`. -/
inductive Event where
  | chains (r : Reply Unit) : Event
  | dockerSetup (r : Reply Unit) : Event
  | relayerBuild (r : Reply Unit) : Event
  | icBuild (r : Reply Unit) : Event
  | icClose (r : Reply Unit) : Event
  | getAndFundTestUsers (amount : Int) (r : Reply (String × String)) : Event
  | waitForBlocks (delta : Int) (chains : List Chain) (r : Reply Unit) : Event
  | getBalance (c : Chain) (address denom : String) (r : Reply Int) : Event
  | getTransferChannel (srcChainID dstChainID : String) (r : Reply ChannelOutput) : Event
  | height (c : Chain) (r : Reply Int) : Event
  | sendIBCTransfer (c : Chain) (channelID keyName : String) (amount : WalletAmount)
      (r : Reply Tx) : Event
  | startRelayer (path : String) (r : Reply Unit) : Event
  | stopRelayer (r : Reply Unit) : Event
  | pollForAck (c : Chain) (startHeight maxHeight : Int) (packet : Packet)
      (r : Reply Unit) : Event
  | requireEqual (expected actual : Int) : Event
deriving DecidableEq

/-- Why the test was marked failed. -/
inductive Failure where
  | noError (err : String) : Failure
  | notEqual (expected actual : Int) : Failure
  | helper (msg : String) : Failure
deriving DecidableEq, Repr

/-- The two closures handed to `t.Cleanup`. -/
inductive Cleanup where
  | closeInterchain : Cleanup
  | stopRelayer : Cleanup
deriving DecidableEq, Repr

/-- Everything outside the test function.  The state `σ` of the outside world
(both chains, the relayer, docker) is threaded through every call, so an
answer may depend on all earlier calls and on the arguments.
`GenesisWalletAmount` and the seda chain configuration are package-level
values declared outside the visible sources; `GetPrefixedDenom`,
`ParseDenomTrace` and `IBCDenom` are the pure functions of ibc-go. -/
structure Env (σ : Type) where
  short : Bool
  GenesisWalletAmount : Int
  config : Chain → ChainConfig
  GetPrefixedDenom : String → String → String → String
  ParseDenomTrace : String → DenomTrace
  IBCDenom : DenomTrace → String
  chains : σ → Reply Unit × σ
  dockerSetup : σ → Reply Unit × σ
  relayerBuild : σ → Reply Unit × σ
  icBuild : σ → Reply Unit × σ
  icClose : σ → Reply Unit × σ
  getAndFundTestUsers : Int → σ → Reply (String × String) × σ
  waitForBlocks : Int → List Chain → σ → Reply Unit × σ
  getBalance : Chain → String → String → σ → Reply Int × σ
  getTransferChannel : String → String → σ → Reply ChannelOutput × σ
  height : Chain → σ → Reply Int × σ
  sendIBCTransfer : Chain → String → String → WalletAmount → σ → Reply Tx × σ
  startRelayer : String → σ → Reply Unit × σ
  stopRelayer : σ → Reply Unit × σ
  pollForAck : Chain → Int → Int → Packet → σ → Reply Unit × σ

/-- The state of a running test: the outside world, the actions so far, the
registered cleanups (latest first), the recorded failures, the skip flag and
the lines written with `t.Logf`. -/
structure T (σ : Type) where
  world : σ
  trace : List Event
  cleanups : List Cleanup
  failures : List Failure
  skipped : Bool
  logs : List String

/-- How a statement of the test ends: normally with a value, by leaving the
test goroutine (`t.FailNow`, `t.SkipNow`), or by a panic. -/
inductive Res (α : Type) where
  | ok (a : α) : Res α
  | goexit : Res α
  | panic (msg : String) : Res α

/-- A statement of the test. -/
def TestM (σ α : Type) : Type := T σ → Res α × T σ

/-- Sequencing of statements: whatever leaves the goroutine skips the rest. -/
def TestM.bind {σ α β : Type} (m : TestM σ α) (f : α → TestM σ β) : TestM σ β :=
  fun t =>
    match m t with
    | (.ok a, t1) => f a t1
    | (.goexit, t1) => (.goexit, t1)
    | (.panic msg, t1) => (.panic msg, t1)

instance {σ : Type} : Monad (TestM σ) where
  pure := fun a t => (.ok a, t)
  bind := TestM.bind

/-- A call to a collaborator: the world answers and moves on, the action is
recorded. -/
def call {σ R : Type} (op : σ → Reply R × σ) (mk : Reply R → Event) : TestM σ (Reply R) :=
  fun t =>
    match op t.world with
    | (r, w) => (.ok r, { t with world := w, trace := t.trace ++ [mk r] })

/-- The assertion `require.NoError(t, err)`: on an error the failure is
recorded and the test goroutine exits. -/
def requireNoError {σ R : Type} (r : Reply R) : TestM σ R :=
  fun t =>
    match r with
    | .ok v => (.ok v, t)
    | .error err => (.goexit, { t with failures := t.failures ++ [.noError err] })

/-- A helper that is handed `t` and fails the test itself when it cannot do
its work. -/
def requireHelper {σ R : Type} (r : Reply R) : TestM σ R :=
  fun t =>
    match r with
    | .ok v => (.ok v, t)
    | .error msg => (.goexit, { t with failures := t.failures ++ [.helper msg] })

/-- The assertion `require.Equal(t, expected, actual)` on integers.  For two
`int64` this is equality.  For two `math.Int` testify compares the big
integers deeply (sign and magnitude words), which holds only for equal
values and does hold for equal non-zero values. -/
def requireEqual {σ : Type} (expected actual : Int) : TestM σ Unit :=
  fun t =>
    let t1 := { t with trace := t.trace ++ [.requireEqual expected actual] }
    if expected = actual then (.ok (), t1)
    else (.goexit, { t1 with failures := t1.failures ++ [.notEqual expected actual] })

/-- The method `math.Int.IsInt64()`: the value fits an `int64`. -/
def isInt64 (x : Int) : Bool := decide (-2 ^ 63 ≤ x ∧ x < 2 ^ 63)

/-- The method `math.Int.Int64()`, which panics outside the `int64` range. -/
def int64 {σ : Type} (x : Int) : TestM σ Int :=
  fun t =>
    if isInt64 x then (.ok x, t)
    else (.panic "Int64() out of bound", t)

/-- Addition of two `int64` values, as in `sedaHeight+50` (a block height is an
`int64` in interchaintest v8; with the unsigned heights of earlier releases
the sum is the same whenever it fits).  Whenever the integer sum fits the
`int64` range, this is the integer sum. -/
def addInt64 (x y : Int) : Int := (x + y + 2 ^ 63) % 2 ^ 64 - 2 ^ 63

/-- The method `t.Skip()`. -/
def skip {σ : Type} : TestM σ Unit :=
  fun t => (.goexit, { t with skipped := true })

/-- The method `t.Cleanup(f)`. -/
def cleanup {σ : Type} (c : Cleanup) : TestM σ Unit :=
  fun t => (.ok (), { t with cleanups := c :: t.cleanups })

/-- The constant `ibcPath`. -/
def ibcPath : String := "ibc-path"

/-- The value `math.NewInt(1_000)`. -/
def transferAmount : Int := 1000

/-- The body of `TestSedaGaiaIBCTransfer`. -/
def TestSedaGaiaIBCTransfer {σ : Type} (env : Env σ) : TestM σ Unit := do
  if env.short then skip
  -- t.Parallel() and the two factories only set things up for the calls below
  -- chains, err := cf.Chains(t.Name())
  requireNoError (← call env.chains .chains)
  let seda : Chain := Chain.seda
  let gaia : Chain := Chain.gaia
  -- client, network := interchaintest.DockerSetup(t); r := rf.Build(t, client, network)
  requireHelper (← call env.dockerSetup .dockerSetup)
  requireHelper (← call env.relayerBuild .relayerBuild)
  requireNoError (← call env.icBuild .icBuild)
  cleanup .closeInterchain
  -- users := interchaintest.GetAndFundTestUsers(t, ctx, t.Name(), GenesisWalletAmount, seda, gaia)
  let users ← requireHelper (← call (env.getAndFundTestUsers env.GenesisWalletAmount)
    (.getAndFundTestUsers env.GenesisWalletAmount))
  let sedaUserAddr := users.1
  let gaiaUserAddr := users.2
  requireNoError (← call (env.waitForBlocks 5 [seda, gaia]) (.waitForBlocks 5 [seda, gaia]))
  -- original account balances
  let sedaOrigBal ← requireNoError (← call
    (env.getBalance seda sedaUserAddr (env.config seda).Denom)
    (.getBalance seda sedaUserAddr (env.config seda).Denom))
  requireEqual env.GenesisWalletAmount (← int64 sedaOrigBal)
  let gaiaOrigBal ← requireNoError (← call
    (env.getBalance gaia gaiaUserAddr (env.config gaia).Denom)
    (.getBalance gaia gaiaUserAddr (env.config gaia).Denom))
  requireEqual env.GenesisWalletAmount (← int64 gaiaOrigBal)
  -- Seda -> Gaia
  let transfer : WalletAmount :=
    { Address := gaiaUserAddr, Denom := (env.config seda).Denom, Amount := transferAmount }
  let channel ← requireNoError (← call
    (env.getTransferChannel (env.config seda).ChainID (env.config gaia).ChainID)
    (.getTransferChannel (env.config seda).ChainID (env.config gaia).ChainID))
  let sedaHeight ← requireNoError (← call (env.height seda) (.height seda))
  let transferTx ← requireNoError (← call
    (env.sendIBCTransfer seda channel.ChannelID sedaUserAddr transfer)
    (.sendIBCTransfer seda channel.ChannelID sedaUserAddr transfer))
  requireNoError (← call (env.startRelayer ibcPath) (.startRelayer ibcPath))
  cleanup .stopRelayer
  requireNoError (← call
    (env.pollForAck seda sedaHeight (addInt64 sedaHeight 50) transferTx.Packet)
    (.pollForAck seda sedaHeight (addInt64 sedaHeight 50) transferTx.Packet))
  requireNoError (← call (env.waitForBlocks 10 [seda]) (.waitForBlocks 10 [seda]))
  -- the IBC denom for aseda on Gaia
  let sedaTokenDenom := env.GetPrefixedDenom channel.Counterparty.PortID
    channel.Counterparty.ChannelID (env.config seda).Denom
  let sedaIBCDenom := env.IBCDenom (env.ParseDenomTrace sedaTokenDenom)
  let sedaUpdateBal ← requireNoError (← call
    (env.getBalance seda sedaUserAddr (env.config seda).Denom)
    (.getBalance seda sedaUserAddr (env.config seda).Denom))
  requireEqual (sedaOrigBal - transferAmount) sedaUpdateBal
  let gaiaUpdateBal ← requireNoError (← call
    (env.getBalance gaia gaiaUserAddr sedaIBCDenom)
    (.getBalance gaia gaiaUserAddr sedaIBCDenom))
  requireEqual transferAmount gaiaUpdateBal
  -- Gaia -> Seda
  let transfer : WalletAmount :=
    { Address := sedaUserAddr, Denom := sedaIBCDenom, Amount := transferAmount }
  let gaiaHeight ← requireNoError (← call (env.height gaia) (.height gaia))
  let transferTx ← requireNoError (← call
    (env.sendIBCTransfer gaia channel.Counterparty.ChannelID gaiaUserAddr transfer)
    (.sendIBCTransfer gaia channel.Counterparty.ChannelID gaiaUserAddr transfer))
  requireNoError (← call
    (env.pollForAck gaia gaiaHeight (addInt64 gaiaHeight 25) transferTx.Packet)
    (.pollForAck gaia gaiaHeight (addInt64 gaiaHeight 25) transferTx.Packet))
  let sedaUpdateBal ← requireNoError (← call
    (env.getBalance seda sedaUserAddr (env.config seda).Denom)
    (.getBalance seda sedaUserAddr (env.config seda).Denom))
  requireEqual sedaOrigBal sedaUpdateBal
  let gaiaUpdateBal ← requireNoError (← call
    (env.getBalance gaia gaiaUserAddr sedaIBCDenom)
    (.getBalance gaia gaiaUserAddr sedaIBCDenom))
  requireEqual 0 (← int64 gaiaUpdateBal)

/-- One registered cleanup closure.  `closeInterchain` is `_ = ic.Close()`;
`stopRelayer` calls `r.StopRelayer` and writes a log line on an error. -/
def runCleanup {σ : Type} (env : Env σ) (c : Cleanup) (t : T σ) : T σ :=
  match c with
  | .closeInterchain =>
    match env.icClose t.world with
    | (r, w) => { t with world := w, trace := t.trace ++ [.icClose r] }
  | .stopRelayer =>
    match env.stopRelayer t.world with
    | (.error err, w) =>
      { t with world := w, trace := t.trace ++ [.stopRelayer (.error err)],
               logs := t.logs ++ ["an error occurred while stopping the relayer: " ++ err] }
    | (.ok u, w) => { t with world := w, trace := t.trace ++ [.stopRelayer (.ok u)] }

/-- The cleanups run when the test function has ended, last registered first. -/
def runCleanups {σ : Type} (env : Env σ) (cs : List Cleanup) (t : T σ) : T σ :=
  match cs with
  | [] => t
  | c :: rest => runCleanups env rest (runCleanup env c t)

/-- What the test runner reports. -/
inductive Verdict where
  | passed : Verdict
  | failed : Verdict
  | skipped : Verdict
  | panicked (msg : String) : Verdict
deriving DecidableEq, Repr

/-- The report for a test that ended with `r` in state `t`. -/
def verdictOf {σ α : Type} (r : Res α) (t : T σ) : Verdict :=
  match r with
  | .panic msg => .panicked msg
  | _ => if t.failures ≠ [] then .failed else if t.skipped then .skipped else .passed

/-- The state in which a test starts. -/
def T.init {σ : Type} (w : σ) : T σ :=
  { world := w, trace := [], cleanups := [], failures := [], skipped := false, logs := [] }

/-- A finished run of the scenario: `result` and `body` are how and in which
state the test function ended, `final` is the state after the cleanups, and
`verdict` is what the runner reports then. -/
structure Run (σ : Type) where
  result : Res Unit
  body : T σ
  final : T σ
  verdict : Verdict

/-- Run the whole scenario from the world state `w`: the body, then the
registered cleanups (they also run after a failure or a panic). -/
def runTest {σ : Type} (env : Env σ) (w : σ) : Run σ :=
  let x := TestSedaGaiaIBCTransfer env (T.init w)
  let t1 := runCleanups env x.2.cleanups x.2
  { result := x.1, body := x.2, final := t1, verdict := verdictOf x.1 t1 }

/-! ### Reading a trace -/

/-- The derived denomination of lines 181-182:
`ParseDenomTrace(GetPrefixedDenom(portID, channelID, baseDenom)).IBCDenom()`. -/
def deriveDenom {σ : Type} (env : Env σ) (portID channelID baseDenom : String) : String :=
  env.IBCDenom (env.ParseDenomTrace (env.GetPrefixedDenom portID channelID baseDenom))

/-- The answered balance queries of a trace, in order:
chain, account, denomination, balance. -/
def balanceQueries : List Event → List (Chain × String × String × Int)
  | [] => []
  | .getBalance c address denom (.ok bal) :: rest =>
    (c, address, denom, bal) :: balanceQueries rest
  | _ :: rest => balanceQueries rest

/-- The channel answered by `ibc.GetTransferChannel`, if it was answered. -/
def transferChannel : List Event → Option ChannelOutput
  | [] => none
  | .getTransferChannel _ _ (.ok ch) :: _ => some ch
  | _ :: rest => transferChannel rest

/-- The run got past the verification of the outbound leg: the first
statement after it, `gaia.Height(ctx)`, was executed. -/
def reachedReverseLeg : List Event → Bool
  | [] => false
  | .height .gaia _ :: _ => true
  | _ :: rest => reachedReverseLeg rest

/-- A teardown action: stopping the relayer or closing the networks. -/
def Event.isTeardown : Event → Bool
  | .stopRelayer _ => true
  | .icClose _ => true
  | _ => false

/-- The errors returned by `r.StopRelayer`, in order. -/
def stopRelayerErrors : List Event → List String
  | [] => []
  | .stopRelayer (.error err) :: rest => err :: stopRelayerErrors rest
  | _ :: rest => stopRelayerErrors rest

/-- The errors returned by `ic.Close`, in order. -/
def closeErrors : List Event → List String
  | [] => []
  | .icClose (.error err) :: rest => err :: closeErrors rest
  | _ :: rest => closeErrors rest

/-- The action went wrong: the collaborator answered with an error, or the
two sides of a `require.Equal` differ. -/
def Event.failed : Event → Bool
  | .chains (.error _) => true
  | .dockerSetup (.error _) => true
  | .relayerBuild (.error _) => true
  | .icBuild (.error _) => true
  | .icClose (.error _) => true
  | .getAndFundTestUsers _ (.error _) => true
  | .waitForBlocks _ _ (.error _) => true
  | .getBalance _ _ _ (.error _) => true
  | .getTransferChannel _ _ (.error _) => true
  | .height _ (.error _) => true
  | .sendIBCTransfer _ _ _ _ (.error _) => true
  | .startRelayer _ (.error _) => true
  | .stopRelayer (.error _) => true
  | .pollForAck _ _ _ _ (.error _) => true
  | .requireEqual expected actual => decide (expected ≠ actual)
  | _ => false

/-- The log line written for a `StopRelayer` error. -/
def stopRelayerLog (err : String) : String :=
  "an error occurred while stopping the relayer: " ++ err

/-! ### A small concrete world -/

/-- A two-chain ledger: A's balance of its native token, B's balance of its
native token, B's balance of the voucher for A's token, and a block counter. -/
structure Ledger where
  sedaBal : Int
  gaiaBal : Int
  gaiaVoucher : Int
  blocks : Int
deriving DecidableEq, Repr

/-- A world in which every transfer is relayed at once; the receiving side of
an outbound transfer is credited the amount minus `fee`.  `closeErr`,
`stopErr` and `ackErr` make `ic.Close`, `r.StopRelayer` and the polls on chain
`ackErr.1` fail with the given message. -/
def demoEnv (genesis fee : Int) (closeErr stopErr : Option String)
    (ackErr : Option (Chain × String)) : Env Ledger where
  short := false
  GenesisWalletAmount := genesis
  config := fun c =>
    match c with
    | .seda => ⟨"seda-1", "aseda"⟩
    | .gaia => ⟨"gaia-1", "uatom"⟩
  GetPrefixedDenom := fun p c d => p ++ "/" ++ c ++ "/" ++ d
  ParseDenomTrace := fun s => ⟨"", s⟩
  IBCDenom := fun dt => "ibc/" ++ dt.BaseDenom
  chains := fun s => (.ok (), s)
  dockerSetup := fun s => (.ok (), s)
  relayerBuild := fun s => (.ok (), s)
  icBuild := fun s => (.ok (), s)
  icClose := fun s =>
    match closeErr with
    | some e => (.error e, s)
    | none => (.ok (), s)
  getAndFundTestUsers := fun _ s => (.ok ("seda1user", "cosmos1user"), s)
  waitForBlocks := fun n _ s => (.ok (), { s with blocks := s.blocks + n })
  getBalance := fun c _ denom s =>
    match c with
    | .seda => (.ok s.sedaBal, s)
    | .gaia => if denom = "uatom" then (.ok s.gaiaBal, s) else (.ok s.gaiaVoucher, s)
  getTransferChannel := fun _ _ s =>
    (.ok ⟨"transfer", "channel-0", ⟨"transfer", "channel-7"⟩⟩, s)
  height := fun _ s => (.ok s.blocks, s)
  sendIBCTransfer := fun c channelID _ amount s =>
    match c with
    | .seda =>
      (.ok ⟨"TX1", ⟨1, channelID, "channel-7"⟩⟩,
        { s with sedaBal := s.sedaBal - amount.Amount,
                 gaiaVoucher := s.gaiaVoucher + amount.Amount - fee })
    | .gaia =>
      (.ok ⟨"TX2", ⟨1, channelID, "channel-0"⟩⟩,
        { s with sedaBal := s.sedaBal + amount.Amount,
                 gaiaVoucher := s.gaiaVoucher - amount.Amount })
  startRelayer := fun _ s => (.ok (), s)
  stopRelayer := fun s =>
    match stopErr with
    | some e => (.error e, s)
    | none => (.ok (), s)
  pollForAck := fun c _ _ _ s =>
    match ackErr with
    | some (c1, e) => if c1 = c then (.error e, s) else (.ok (), s)
    | none => (.ok (), s)

/-- The ledger right after genesis funding. -/
def demoLedger (genesis : Int) : Ledger :=
  { sedaBal := genesis, gaiaBal := genesis, gaiaVoucher := 0, blocks := 100 }

/-- The world of the concrete scenario: both accounts hold 2,000,000,000,000
and nothing goes wrong. -/
def happyEnv : Env Ledger := demoEnv 2000000000000 0 none none none

/-- The starting ledger of the concrete scenario. -/
def happyLedger : Ledger := demoLedger 2000000000000

end Interchaintest

namespace E2E

/-! ## Theorems about `e2e/query.go` -/

/-- The shared shape of the five helpers that return a read error unwrapped. -/
theorem helperContract_plain {α : Type} (cdc : Codec α) (read : Except String Bytes) :
    HelperContract cdc read id
      (match read with
       | .error err => (cdc.zero, some err)
       | .ok body =>
         match cdc.UnmarshalJSON body cdc.zero with
         | (res, some err) => (res, some err)
         | (res, none) => (res, none)) := by
  unfold HelperContract
  rcases read with e | body
  · simp
  · dsimp only
    rcases hu : cdc.UnmarshalJSON body cdc.zero with ⟨res, _ | e⟩
    · refine ⟨fun e h => by simp at h, ?_, fun _ => ⟨body, rfl, hu⟩⟩
      intro b r e hb h
      simp only [Except.ok.injEq] at hb
      subst hb
      rw [hu] at h
      simp at h
    · refine ⟨fun e h => by simp at h, ?_, fun h => by simp at h⟩
      intro b r e1 hb h
      simp only [Except.ok.injEq] at hb
      subst hb
      rw [hu] at h
      simp only [Prod.mk.injEq, Option.some.injEq] at h
      simp [h.2]

/-- The same shape for `queryGovProposal`, which wraps the read error. -/
theorem helperContract_wrapped {α : Type} (cdc : Codec α) (read : Except String Bytes)
    (wrap : String → String) :
    HelperContract cdc read wrap
      (match read with
       | .error err => (cdc.zero, some (wrap err))
       | .ok body =>
         match cdc.UnmarshalJSON body cdc.zero with
         | (res, some err) => (res, some err)
         | (res, none) => (res, none)) := by
  unfold HelperContract
  rcases read with e | body
  · simp
  · dsimp only
    rcases hu : cdc.UnmarshalJSON body cdc.zero with ⟨res, _ | e⟩
    · refine ⟨fun e h => by simp at h, ?_, fun _ => ⟨body, rfl, hu⟩⟩
      intro b r e hb h
      simp only [Except.ok.injEq] at hb
      subst hb
      rw [hu] at h
      simp at h
    · refine ⟨fun e h => by simp at h, ?_, fun h => by simp at h⟩
      intro b r e1 hb h
      simp only [Except.ok.injEq] at hb
      subst hb
      rw [hu] at h
      simp only [Prod.mk.injEq, Option.some.injEq] at h
      simp [h.2]

/-- C1: whenever the HTTP response has a status other than 200, `queryTx`
returns the non-nil error built from the status code alone, for every body,
every decoder and every formatter: the body is never decoded. -/
theorem queryTx_non200_is_error (get : String → Except String Response)
    (decode : String → Except String (List (String × Value))) (fmtV : Value → String)
    (endpoint txHash : String) (resp : Response)
    (hget : get (endpoint ++ "/cosmos/tx/v1beta1/txs/" ++ txHash) = .ok resp)
    (hstatus : resp.StatusCode ≠ 200) :
    queryTx ⟨get, decode, fmtV⟩ endpoint txHash =
      .returned (some ("tx query returned non-200 status: " ++ toString resp.StatusCode)) := by
  simp [queryTx, hget, hstatus]

/-- Witness for C1: a 404 answer whose body would decode to code 0. -/
theorem queryTx_non200_is_error_witness :
    queryTx (demoNet 404 "\x7b\x22tx_response\x22:\x7b\x22code\x22:0\x7d\x7d") "http://node" "ABC" =
      .returned (some ("tx query returned non-200 status: " ++ toString (404 : Int))) :=
  queryTx_non200_is_error _ _ _ "http://node" "ABC" ⟨404, _⟩ rfl (by decide)

/-- C2: on a 200 answer whose decoded body holds a `float64` under
`tx_response.code`, `queryTx` returns nil exactly when that number is zero
(for an integer code `n`: exactly when `n = 0`), and otherwise returns the
error "tx HASH failed with status code CODE", which contains the queried hash
and the printed code. -/
theorem queryTx_code_zero_iff_nil (net : Net) (endpoint txHash : String) (resp : Response)
    (result txResp : List (String × Value)) (v : Float64)
    (hget : net.Get (endpoint ++ "/cosmos/tx/v1beta1/txs/" ++ txHash) = .ok resp)
    (hstatus : resp.StatusCode = 200)
    (hdec : net.Decode resp.Body = .ok result)
    (htx : result.lookup "tx_response" = some (.object txResp))
    (hcode : txResp.lookup "code" = some (.number v)) :
    (queryTx net endpoint txHash = .returned none ↔ v.isZero = true) ∧
    (∀ n : Int, v = Float64.ofInt n → (queryTx net endpoint txHash = .returned none ↔ n = 0)) ∧
    (v.isZero = false →
      ∃ msg, queryTx net endpoint txHash = .returned (some msg) ∧
        msg = "tx " ++ txHash ++ " failed with status code " ++ net.fmtV (.number v) ∧
        txHash.data <:+: msg.data ∧ (net.fmtV (.number v)).data <:+: msg.data) := by
  have hq : queryTx net endpoint txHash =
      if v.isZero then .returned none
      else .returned (some ("tx " ++ txHash ++ " failed with status code "
        ++ net.fmtV (.number v))) := by
    simp [queryTx, hget, hstatus, hdec, htx, hcode]
  refine ⟨?_, ?_, ?_⟩
  · rw [hq]; cases v.isZero <;> simp
  · intro n hn
    rw [hq, hn]
    by_cases h0 : n = 0
    · simp [h0, Float64.ofInt, Float64.isZero]
    · simp [h0, Float64.ofInt, Float64.isZero]
  · intro hz
    refine ⟨_, by rw [hq, hz]; rfl, rfl, ?_, ?_⟩
    · simp only [String.data_append]
      exact ⟨"tx ".data, " failed with status code ".data ++ (net.fmtV (.number v)).data,
        by simp⟩
    · simp only [String.data_append]
      exact ⟨"tx ".data ++ txHash.data ++ " failed with status code ".data, [], by simp⟩

/-- Witness for C2: a 200 answer carrying code 5. -/
theorem queryTx_code_zero_iff_nil_witness :
    (queryTx (demoNet 200 "\x7b\x22tx_response\x22:\x7b\x22code\x22:5\x7d\x7d") "http://node" "ABC"
        = .returned none ↔ (Float64.ofInt 5).isZero = true) ∧
    queryTx (demoNet 200 "\x7b\x22tx_response\x22:\x7b\x22code\x22:5\x7d\x7d") "http://node" "ABC"
        = .returned (some "tx ABC failed with status code 5") :=
  ⟨(queryTx_code_zero_iff_nil (demoNet 200 "\x7b\x22tx_response\x22:\x7b\x22code\x22:5\x7d\x7d")
      "http://node" "ABC" ⟨200, _⟩ _ _ (Float64.ofInt 5) rfl rfl rfl rfl rfl).1, by decide⟩

/-- C3 (the code at the failing input): a 200 answer whose body is the JSON
object `{}` makes `queryTx` panic in the type assertion on `tx_response`; no
error is returned to the caller. -/
theorem queryTx_missing_tx_response_panics :
    queryTx (demoNet 200 "\x7b\x7d") "http://node" "ABC" =
      .panicked "interface conversion: interface \x7b\x7d is not map[string]interface \x7b\x7d" ∧
    queryTx (demoNet 200 "\x7b\x22tx_response\x22:\x7b\x7d\x7d") "http://node" "ABC" =
      .panicked "interface conversion: interface \x7b\x7d is not float64" ∧
    queryTx (demoNet 200 "not json") "http://node" "ABC" =
      .returned (some "failed to read response body: invalid character") := by
  decide

/-- C8: each of the six typed helpers meets the error contract: a failed read
gives the zero value with a non-nil error, a failed decode gives a non-nil
error, and a nil error comes only with a successful read and decode, the
returned value being the decoded one. -/
theorem typed_helpers_error_contract {α : Type} (httpGet : HttpGet) (cdc : Codec α)
    (endpoint hash : String) (proposalID : Int) :
    HelperContract cdc
        (httpGet (endpoint ++ "/cosmos/gov/v1/proposals/" ++ toString proposalID))
        (fun e => "failed to execute HTTP request: " ++ e)
        (queryGovProposal httpGet cdc endpoint proposalID) ∧
    HelperContract cdc
        (httpGet (endpoint ++ "/seda-chain/wasm-storage/data_request_wasm/" ++ hash)) id
        (queryDataRequestWasm httpGet cdc endpoint hash) ∧
    HelperContract cdc
        (httpGet (endpoint ++ "/seda-chain/wasm-storage/overlay_wasm/" ++ hash)) id
        (queryOverlayWasm httpGet cdc endpoint hash) ∧
    HelperContract cdc
        (httpGet (endpoint ++ "/seda-chain/wasm-storage/data_request_wasms")) id
        (queryDataRequestWasms httpGet cdc endpoint) ∧
    HelperContract cdc
        (httpGet (endpoint ++ "/seda-chain/wasm-storage/overlay_wasms")) id
        (queryOverlayWasms httpGet cdc endpoint) ∧
    HelperContract cdc
        (httpGet (endpoint ++ "/seda-chain/wasm-storage/proxy_contract_registry")) id
        (queryProxyContractRegistry httpGet cdc endpoint) :=
  ⟨helperContract_wrapped cdc _ _, helperContract_plain cdc _, helperContract_plain cdc _,
    helperContract_plain cdc _, helperContract_plain cdc _, helperContract_plain cdc _⟩

/-- Witness for C8: `queryOverlayWasms` on an unreachable endpoint, on an
undecodable body and on a good body. -/
theorem typed_helpers_error_contract_witness :
    queryOverlayWasms demoHttpGet demoCodec "down" = (0, some "connection refused") ∧
    (queryOverlayWasms demoHttpGet demoCodec "junk").2 = some "unexpected end of JSON input" ∧
    (queryOverlayWasms demoHttpGet demoCodec "node").2 = none ∧
    (∃ body, demoHttpGet ("node" ++ "/seda-chain/wasm-storage/overlay_wasms") = .ok body ∧
      demoCodec.UnmarshalJSON body demoCodec.zero =
        ((queryOverlayWasms demoHttpGet demoCodec "node").1, none)) :=
  ⟨(typed_helpers_error_contract demoHttpGet demoCodec "down" "h" 1).2.2.2.2.1.1
      "connection refused" (by decide),
    (typed_helpers_error_contract demoHttpGet demoCodec "junk" "h" 1).2.2.2.2.1.2.1
      [0] 3 "unexpected end of JSON input" (by decide) (by decide),
    by decide,
    (typed_helpers_error_contract demoHttpGet demoCodec "node" "h" 1).2.2.2.2.1.2.2
      (by decide)⟩

end E2E

namespace Interchaintest

/-! ## Theorems about `TestSedaGaiaIBCTransfer` -/

/-! ### One statement at a time -/

/-- A call followed by `require.NoError`. -/
theorem step_noError {σ R β : Type} (op : σ → Reply R × σ) (mk : Reply R → Event)
    (k : R → TestM σ β) (t : T σ) :
    TestM.bind (call op mk) (fun r => TestM.bind (requireNoError r) k) t =
      match op t.world with
      | (.ok v, w) => k v { t with world := w, trace := t.trace ++ [mk (.ok v)] }
      | (.error e, w) =>
        (.goexit, { t with world := w, trace := t.trace ++ [mk (.error e)], failures := t.failures ++ [.noError e] }) := by
  simp only [TestM.bind, call, requireNoError]
  rcases op t.world with ⟨r | r, w⟩ <;> rfl

/-- A call of a helper that fails the test itself. -/
theorem step_helper {σ R β : Type} (op : σ → Reply R × σ) (mk : Reply R → Event)
    (k : R → TestM σ β) (t : T σ) :
    TestM.bind (call op mk) (fun r => TestM.bind (requireHelper r) k) t =
      match op t.world with
      | (.ok v, w) => k v { t with world := w, trace := t.trace ++ [mk (.ok v)] }
      | (.error e, w) =>
        (.goexit, { t with world := w, trace := t.trace ++ [mk (.error e)], failures := t.failures ++ [.helper e] }) := by
  simp only [TestM.bind, call, requireHelper]
  rcases op t.world with ⟨r | r, w⟩ <;> rfl

/-- The assertion `require.Equal` as the last statement. -/
theorem last_equal {σ : Type} (a b : Int) (t : T σ) :
    requireEqual a b t =
      if a = b then (.ok (), { t with trace := t.trace ++ [.requireEqual a b] })
      else (.goexit, { t with trace := t.trace ++ [.requireEqual a b], failures := t.failures ++ [.notEqual a b] }) := rfl

/-- The assertion `require.Equal` followed by more statements. -/
theorem step_equal {σ β : Type} (a b : Int) (k : Unit → TestM σ β) (t : T σ) :
    TestM.bind (requireEqual a b) k t =
      if a = b then k () { t with trace := t.trace ++ [.requireEqual a b] }
      else (.goexit, { t with trace := t.trace ++ [.requireEqual a b], failures := t.failures ++ [.notEqual a b] }) := by
  simp only [TestM.bind, requireEqual]
  by_cases h : a = b <;> simp [h]

/-- The conversion `Int64()` followed by more statements. -/
theorem step_int64 {σ β : Type} (x : Int) (k : Int → TestM σ β) (t : T σ) :
    TestM.bind (int64 x) k t =
      if isInt64 x then k x t else (.panic "Int64() out of bound", t) := by
  simp only [TestM.bind, int64]
  cases isInt64 x <;> simp

/-- Registering a cleanup. -/
theorem step_cleanup {σ β : Type} (c : Cleanup) (k : Unit → TestM σ β) (t : T σ) :
    TestM.bind (cleanup c) k t = k () { t with cleanups := c :: t.cleanups } := rfl

/-- After `t.Skip()` nothing more is executed. -/
theorem step_skip {σ β : Type} (k : PUnit → TestM σ β) (t : T σ) :
    TestM.bind skip k t = (.goexit, { t with skipped := true }) := rfl

/-- A statement without effect. -/
theorem step_pure {σ α β : Type} (a : α) (k : α → TestM σ β) (t : T σ) :
    TestM.bind (fun t => (Res.ok a, t)) k t = k a t := rfl

/-- A conditional statement applied to a state. -/
theorem step_if {σ β : Type} (c : Prop) [Decidable c] (a b : TestM σ β) (t : T σ) :
    (if c then a else b) t = if c then a t else b t := by
  split <;> rfl

/-! ### The cleanups -/

/-- One cleanup leaves the failures and the skip flag alone. -/
theorem runCleanup_failures {σ : Type} (env : Env σ) (c : Cleanup) (t : T σ) :
    (runCleanup env c t).failures = t.failures ∧ (runCleanup env c t).skipped = t.skipped := by
  cases c
  · exact ⟨rfl, rfl⟩
  · simp only [runCleanup]
    split <;> exact ⟨rfl, rfl⟩

/-- The cleanups leave the failures and the skip flag alone. -/
theorem runCleanups_failures {σ : Type} (env : Env σ) (cs : List Cleanup) (t : T σ) :
    (runCleanups env cs t).failures = t.failures ∧ (runCleanups env cs t).skipped = t.skipped := by
  induction cs generalizing t with
  | nil => exact ⟨rfl, rfl⟩
  | cons c rest ih =>
    simp only [runCleanups]
    rw [(ih _).1, (ih _).2]
    exact runCleanup_failures env c t

/-- The verdict depends on the state only through the failures and the skip flag. -/
theorem verdictOf_congr {σ α : Type} (r : Res α) (t t1 : T σ)
    (hf : t1.failures = t.failures) (hs : t1.skipped = t.skipped) :
    verdictOf r t1 = verdictOf r t := by
  simp only [verdictOf, hf, hs]

/-- The verdict of a run is the verdict of its test function. -/
theorem runTest_verdict {σ : Type} (env : Env σ) (w : σ) :
    (runTest env w).verdict =
      verdictOf (TestSedaGaiaIBCTransfer env (T.init w)).1
        (TestSedaGaiaIBCTransfer env (T.init w)).2 := by
  simp only [runTest]
  exact verdictOf_congr _ _ _ (runCleanups_failures _ _ _).1 (runCleanups_failures _ _ _).2

/-- The body state of a run. -/
theorem runTest_body {σ : Type} (env : Env σ) (w : σ) :
    (runTest env w).body = (TestSedaGaiaIBCTransfer env (T.init w)).2 := rfl

/-- The result of a run. -/
theorem runTest_result {σ : Type} (env : Env σ) (w : σ) :
    (runTest env w).result = (TestSedaGaiaIBCTransfer env (T.init w)).1 := rfl

/-- The final state of a run. -/
theorem runTest_final {σ : Type} (env : Env σ) (w : σ) :
    (runTest env w).final =
      runCleanups env (TestSedaGaiaIBCTransfer env (T.init w)).2.cleanups
        (TestSedaGaiaIBCTransfer env (T.init w)).2 := rfl

/-- One cleanup adds one teardown action, and a log line exactly for a `StopRelayer` error. -/
theorem runCleanup_trace {σ : Type} (env : Env σ) (c : Cleanup) (t : T σ) :
    ∃ ev, (runCleanup env c t).trace = t.trace ++ [ev] ∧ ev.isTeardown = true ∧
      (runCleanup env c t).logs = t.logs ++ (stopRelayerErrors [ev]).map stopRelayerLog := by
  cases c
  · exact ⟨_, rfl, rfl, by simp [runCleanup, stopRelayerErrors]⟩
  · simp only [runCleanup]
    split
    · exact ⟨_, rfl, rfl, rfl⟩
    · exact ⟨_, rfl, rfl, by simp [stopRelayerErrors]⟩

/-- The `StopRelayer` errors of two traces in a row. -/
theorem stopRelayerErrors_append (l m : List Event) :
    stopRelayerErrors (l ++ m) = stopRelayerErrors l ++ stopRelayerErrors m := by
  induction l with
  | nil => rfl
  | cons e rest ih =>
    cases e with
    | stopRelayer r =>
      cases r with
      | error err => simp [stopRelayerErrors, ih]
      | ok u => simp [stopRelayerErrors, ih]
    | _ => simp [stopRelayerErrors, ih]

/-- The cleanups add teardown actions only, and log lines exactly for `StopRelayer` errors. -/
theorem runCleanups_trace {σ : Type} (env : Env σ) (cs : List Cleanup) (t : T σ) :
    ∃ td, (runCleanups env cs t).trace = t.trace ++ td ∧ (∀ ev ∈ td, ev.isTeardown = true) ∧
      (runCleanups env cs t).logs = t.logs ++ (stopRelayerErrors td).map stopRelayerLog := by
  induction cs generalizing t with
  | nil => exact ⟨[], by simp [runCleanups], by simp, by simp [runCleanups, stopRelayerErrors]⟩
  | cons c rest ih =>
    obtain ⟨ev, h1, h2, h3⟩ := runCleanup_trace env c t
    obtain ⟨td, k1, k2, k3⟩ := ih (runCleanup env c t)
    refine ⟨ev :: td, ?_, ?_, ?_⟩
    · simp only [runCleanups]
      rw [k1, h1]
      simp
    · intro e he
      rcases List.mem_cons.mp he with rfl | he
      · exact h2
      · exact k2 e he
    · simp only [runCleanups]
      rw [k3, h3]
      have : stopRelayerErrors (ev :: td) = stopRelayerErrors [ev] ++ stopRelayerErrors td :=
        stopRelayerErrors_append [ev] td
      rw [this]
      simp

/-- C4: a run gets past the verification of the outbound leg only if the
balance observed for A's account in A's native denomination is the original
balance minus the transfer amount and the balance observed for B's account
under the derived denomination is the transfer amount; a third balance answer
different from the first minus the amount, or a fourth different from the
amount, ends the run as failed with no further balance query. -/
theorem outbound_leg_exact_balances {σ : Type} (env : Env σ) (w : σ) :
    (reachedReverseLeg (runTest env w).body.trace = true →
      ∃ a b origA origB ch rest,
        transferChannel (runTest env w).body.trace = some ch ∧
        balanceQueries (runTest env w).body.trace =
          (.seda, a, (env.config .seda).Denom, origA) ::
          (.gaia, b, (env.config .gaia).Denom, origB) ::
          (.seda, a, (env.config .seda).Denom, origA - transferAmount) ::
          (.gaia, b, deriveDenom env ch.Counterparty.PortID ch.Counterparty.ChannelID
              (env.config .seda).Denom, transferAmount) :: rest) ∧
    (∀ q0 q2, (balanceQueries (runTest env w).body.trace)[0]? = some q0 →
      (balanceQueries (runTest env w).body.trace)[2]? = some q2 →
      q2.2.2.2 ≠ q0.2.2.2 - transferAmount →
      (runTest env w).verdict = .failed ∧
        (balanceQueries (runTest env w).body.trace).length = 3) ∧
    (∀ q3, (balanceQueries (runTest env w).body.trace)[3]? = some q3 →
      q3.2.2.2 ≠ transferAmount →
      (runTest env w).verdict = .failed ∧
        (balanceQueries (runTest env w).body.trace).length = 4) := by
  rw [runTest_verdict, runTest_body]
  generalize hx : TestSedaGaiaIBCTransfer env (T.init w) = x
  unfold TestSedaGaiaIBCTransfer at hx
  simp only [bind, pure, T.init] at hx
  rw [step_if] at hx
  split at hx
  · subst hx
    refine ⟨?_, ?_, ?_⟩
    · intro h; cases h
    · intro _ _ h; cases h
    · intro _ h; cases h
  rw [step_pure] at hx
  repeat' (first
    | (rw [step_noError] at hx; (try simp only [List.nil_append, List.cons_append] at hx);
       split at hx)
    | (rw [step_helper] at hx; (try simp only [List.nil_append, List.cons_append] at hx);
       split at hx)
    | (rw [step_equal] at hx; (try simp only [List.nil_append, List.cons_append] at hx);
       split at hx)
    | (rw [step_int64] at hx; split at hx)
    | (rw [step_cleanup] at hx; (try simp only [] at hx))
    | (rw [last_equal] at hx; (try simp only [List.nil_append, List.cons_append] at hx);
       split at hx))
  all_goals subst hx
  all_goals refine ⟨?_, ?_, ?_⟩
  all_goals first
    | (intro h; cases h; done)
    | (intro _ _ _ h; cases h; done)
    | (intro _ h; cases h; done)
    | (intro h; subst_vars; exact ⟨_, _, _, _, _, _, rfl, rfl⟩)
    | (intro q0 q2 h0 h2 hne; cases h2; cases h0; subst_vars
       first | exact ⟨rfl, rfl⟩ | exact (hne rfl).elim)
    | (intro q3 h3 hne; cases h3; subst_vars
       first | exact ⟨rfl, rfl⟩ | exact (hne rfl).elim)

/-- C5: a run of the scenario is reported as passed only if the last balance
observed for A's account in A's native denomination is the original balance
and the last balance observed for B's account under the derived denomination
is zero (and the outbound observations were the original balance minus the
amount, and the amount). -/
theorem round_trip_restores_balances {σ : Type} (env : Env σ) (w : σ)
    (h : (runTest env w).verdict = .passed) :
    ∃ a b origA origB ch,
      transferChannel (runTest env w).body.trace = some ch ∧
      balanceQueries (runTest env w).body.trace =
        [ (.seda, a, (env.config .seda).Denom, origA),
          (.gaia, b, (env.config .gaia).Denom, origB),
          (.seda, a, (env.config .seda).Denom, origA - transferAmount),
          (.gaia, b, deriveDenom env ch.Counterparty.PortID ch.Counterparty.ChannelID
              (env.config .seda).Denom, transferAmount),
          (.seda, a, (env.config .seda).Denom, origA),
          (.gaia, b, deriveDenom env ch.Counterparty.PortID ch.Counterparty.ChannelID
              (env.config .seda).Denom, 0) ] := by
  rw [runTest_verdict] at h
  rw [runTest_body]
  revert h
  generalize hx : TestSedaGaiaIBCTransfer env (T.init w) = x
  unfold TestSedaGaiaIBCTransfer at hx
  simp only [bind, pure, T.init] at hx
  rw [step_if] at hx
  split at hx
  · subst hx
    intro h; cases h
  rw [step_pure] at hx
  repeat' (first
    | (rw [step_noError] at hx; (try simp only [List.nil_append, List.cons_append] at hx);
       split at hx)
    | (rw [step_helper] at hx; (try simp only [List.nil_append, List.cons_append] at hx);
       split at hx)
    | (rw [step_equal] at hx; (try simp only [List.nil_append, List.cons_append] at hx);
       split at hx)
    | (rw [step_int64] at hx; split at hx)
    | (rw [step_cleanup] at hx; (try simp only [] at hx))
    | (rw [last_equal] at hx; (try simp only [List.nil_append, List.cons_append] at hx);
       split at hx))
  all_goals subst hx
  all_goals first
    | (intro h; cases h; done)
    | (intro h; subst_vars; exact ⟨_, _, _, _, _, rfl, rfl⟩)

/-- C9 (amended): teardown never changes the outcome of the scenario: the
verdict, the recorded failures and the skip flag after the cleanups are those
of the test function.  An error of `r.StopRelayer` is written to the log; an
error of `ic.Close` is discarded without a log line: the log holds exactly
one line per `StopRelayer` error and nothing else. -/
theorem teardown_never_changes_outcome {σ : Type} (env : Env σ) (w : σ) :
    (runTest env w).verdict = verdictOf (runTest env w).result (runTest env w).body ∧
    (runTest env w).final.failures = (runTest env w).body.failures ∧
    (runTest env w).final.skipped = (runTest env w).body.skipped ∧
    (runTest env w).final.logs =
      (stopRelayerErrors (runTest env w).final.trace).map stopRelayerLog := by
  have key :
      (TestSedaGaiaIBCTransfer env (T.init w)).2.logs = [] ∧
      stopRelayerErrors (TestSedaGaiaIBCTransfer env (T.init w)).2.trace = [] := by
    generalize hx : TestSedaGaiaIBCTransfer env (T.init w) = x
    unfold TestSedaGaiaIBCTransfer at hx
    simp only [bind, pure, T.init] at hx
    rw [step_if] at hx
    split at hx
    · subst hx
      exact ⟨rfl, rfl⟩
    rw [step_pure] at hx
    repeat' (first
      | (rw [step_noError] at hx; (try simp only [List.nil_append, List.cons_append] at hx);
         split at hx)
      | (rw [step_helper] at hx; (try simp only [List.nil_append, List.cons_append] at hx);
         split at hx)
      | (rw [step_equal] at hx; (try simp only [List.nil_append, List.cons_append] at hx);
         split at hx)
      | (rw [step_int64] at hx; split at hx)
      | (rw [step_cleanup] at hx; (try simp only [] at hx))
      | (rw [last_equal] at hx; (try simp only [List.nil_append, List.cons_append] at hx);
         split at hx))
    all_goals subst hx
    all_goals exact ⟨rfl, rfl⟩
  obtain ⟨k1, k2⟩ := key
  obtain ⟨td, t1, _, t3⟩ := runCleanups_trace env
    (TestSedaGaiaIBCTransfer env (T.init w)).2.cleanups (TestSedaGaiaIBCTransfer env (T.init w)).2
  refine ⟨?_, ?_, ?_, ?_⟩
  · rw [runTest_verdict, runTest_result, runTest_body]
  · rw [runTest_final, runTest_body]
    exact (runCleanups_failures env _ _).1
  · rw [runTest_final, runTest_body]
    exact (runCleanups_failures env _ _).2
  · rw [runTest_final, t3, t1, stopRelayerErrors_append, k1, k2]
    rfl

/-- Witness for C4: in the concrete scenario (2,000,000,000,000 each, amount
1,000) the outbound leg is passed with A at 1,999,999,999,000 and B at 1,000;
in a world that credits B only 999 the run fails after the fourth balance
answer. -/
theorem outbound_leg_exact_balances_witness :
    reachedReverseLeg (runTest happyEnv happyLedger).body.trace = true ∧
    (∃ a b origA origB ch rest,
      transferChannel (runTest happyEnv happyLedger).body.trace = some ch ∧
      balanceQueries (runTest happyEnv happyLedger).body.trace =
        (.seda, a, (happyEnv.config .seda).Denom, origA) ::
        (.gaia, b, (happyEnv.config .gaia).Denom, origB) ::
        (.seda, a, (happyEnv.config .seda).Denom, origA - transferAmount) ::
        (.gaia, b, deriveDenom happyEnv ch.Counterparty.PortID ch.Counterparty.ChannelID
            (happyEnv.config .seda).Denom, transferAmount) :: rest) ∧
    (balanceQueries (runTest happyEnv happyLedger).body.trace).take 4 =
      [ (.seda, "seda1user", "aseda", 2000000000000),
        (.gaia, "cosmos1user", "uatom", 2000000000000),
        (.seda, "seda1user", "aseda", 1999999999000),
        (.gaia, "cosmos1user", "ibc/transfer/channel-7/aseda", 1000) ] ∧
    ((runTest (demoEnv 2000000000000 1 none none none) happyLedger).verdict = .failed ∧
      (balanceQueries
        (runTest (demoEnv 2000000000000 1 none none none) happyLedger).body.trace).length = 4) :=
  ⟨by decide, (outbound_leg_exact_balances happyEnv happyLedger).1 (by decide), by decide,
    (outbound_leg_exact_balances (demoEnv 2000000000000 1 none none none) happyLedger).2.2
      (.gaia, "cosmos1user", "ibc/transfer/channel-7/aseda", 999) (by decide) (by decide)⟩

/-- Witness for C5: the concrete scenario passes, with A back at its original
balance and B's derived-denomination balance at zero. -/
theorem round_trip_restores_balances_witness :
    (runTest happyEnv happyLedger).verdict = .passed ∧
    ∃ a b origA origB ch,
      transferChannel (runTest happyEnv happyLedger).body.trace = some ch ∧
      balanceQueries (runTest happyEnv happyLedger).body.trace =
        [ (.seda, a, (happyEnv.config .seda).Denom, origA),
          (.gaia, b, (happyEnv.config .gaia).Denom, origB),
          (.seda, a, (happyEnv.config .seda).Denom, origA - transferAmount),
          (.gaia, b, deriveDenom happyEnv ch.Counterparty.PortID ch.Counterparty.ChannelID
              (happyEnv.config .seda).Denom, transferAmount),
          (.seda, a, (happyEnv.config .seda).Denom, origA),
          (.gaia, b, deriveDenom happyEnv ch.Counterparty.PortID ch.Counterparty.ChannelID
              (happyEnv.config .seda).Denom, 0) ] :=
  ⟨by decide, round_trip_restores_balances happyEnv happyLedger (by decide)⟩

/-- Counterexample to C9 as stated: when closing the networks fails, the
error is returned by `ic.Close` and no log line is written for it. -/
theorem close_error_not_logged_counterexample :
    closeErrors (runTest (demoEnv 2000000000000 0 (some "close failed") none none)
      happyLedger).final.trace = ["close failed"] ∧
    (runTest (demoEnv 2000000000000 0 (some "close failed") none none)
      happyLedger).final.logs = [] := by
  decide

/-- Witness for C9 (amended): when stopping the relayer fails in the otherwise
passing concrete scenario, the run is still reported as passed and the log
holds the one line for that error. -/
theorem teardown_never_changes_outcome_witness :
    (runTest (demoEnv 2000000000000 0 none (some "stop failed") none) happyLedger).verdict
      = .passed ∧
    stopRelayerErrors (runTest (demoEnv 2000000000000 0 none (some "stop failed") none)
      happyLedger).final.trace = ["stop failed"] ∧
    (runTest (demoEnv 2000000000000 0 none (some "stop failed") none) happyLedger).final.logs
      = (stopRelayerErrors (runTest (demoEnv 2000000000000 0 none (some "stop failed") none)
          happyLedger).final.trace).map stopRelayerLog :=
  ⟨by decide, by decide,
    (teardown_never_changes_outcome (demoEnv 2000000000000 0 none (some "stop failed") none)
      happyLedger).2.2.2⟩

end Interchaintest
